import Mathlib

/-!
# Verification of the RC beam design core (src/app.py)

Shallow embedding of the computational core of the Streamlit app
`src/app.py`: the maximum-moment table `max_moment`, the section designer
`flexural_design` / `shear_design`, and the numeric content of the
shear-force / bending-moment plotting routine `draw_diagrams`.

Modelling conventions:
* Python floats are modelled as exact rationals (`ℚ`); decimal literals of
  the source (`0.9`, `0.17`, `0.75`, `1e6`) are read as the exact rationals
  they denote.
* `round(x, 2)` is modelled by `round2`, round-half-to-even on the exact
  rational scaled by 100, which is Python's rounding rule.
* `math.sqrt fc` is irrational for general `fc`, so `shear_design` receives
  the value of the square root as an extra explicit argument `sfc`; theorems
  constrain `sfc` to be (an approximation of) the nonnegative square root
  of `fc`.  `math.sqrt` raises `ValueError` on negative input, which the
  embedding checks before using `sfc`.
* Functions whose Python body can raise are embedded as `Except PyErr _`:
  `ValueError` from `math.sqrt` of a negative number, `ZeroDivisionError`
  from float division by zero.  `draw_diagrams` is given the same shape so
  that claims about it failing are statable; its body raises nothing.
-/

namespace RCBeam

/-- Exceptions the Python core can raise: `ValueError` (from `math.sqrt` of a
negative number) and `ZeroDivisionError` (from float division by zero). -/
inductive PyErr where
  | valueError
  | zeroDivisionError
deriving DecidableEq, Repr

/-- Round-half-to-even on `ℚ`, the tie-breaking rule of Python's `round`. -/
def roundHalfEven (q : ℚ) : ℤ :=
  if q - ⌊q⌋ = 1/2 then (if 2 ∣ ⌊q⌋ then ⌊q⌋ else ⌊q⌋ + 1) else round q

/-- Python's `round(q, 2)`: round to two decimal places, ties to even. -/
def round2 (q : ℚ) : ℚ :=
  (roundHalfEven (100 * q) : ℚ) / 100

/-- Embeds `max_moment` (src/app.py:15-21): a four-entry dictionary lookup on
the beam-type string with default `0`.  The dictionary keys are distinct, so
the lookup is an if-chain; Python evaluates all four values before `.get`,
but every value is total so this is behaviourally identical. -/
def max_moment (beam : String) (w L : ℚ) : ℚ :=
  if beam = "Simply Supported" then w * L ^ 2 / 8
  else if beam = "Fixed End" then w * L ^ 2 / 12
  else if beam = "Cantilever" then w * L ^ 2 / 2
  else if beam = "Overhang" then w * L ^ 2 / 10
  else 0

/-- Embeds `flexural_design` (src/app.py:23-27).
`Mu = max_moment(beam, w, L)`, `phi = 0.9`,
`As = (Mu * 1e6) / (phi * fy * d * 0.9)`, both results rounded to 2 d.p.
Python float division raises `ZeroDivisionError` when the denominator is
zero, which happens exactly when `fy = 0` or `d = 0`.  The parameters `b`
and `fc` are accepted but unused, as in the source. -/
def flexural_design (beam : String) (w L b d fc fy : ℚ) : Except PyErr (ℚ × ℚ) :=
  let Mu := max_moment beam w L
  let phi : ℚ := 9/10
  if phi * fy * d * (9/10) = 0 then .error .zeroDivisionError
  else .ok (round2 Mu, round2 ((Mu * 10 ^ 6) / (phi * fy * d * (9/10))))

/-- Embeds `shear_design` (src/app.py:29-34).
`Vu = w*L/2`, `phi = 0.75`, `Vc = 0.17*sqrt(fc)*b*d/1000`,
status `"SAFE"` iff `phi*Vc >= Vu` (unrounded), and `Vu`, `phi*Vc` are
rounded to 2 d.p.  `math.sqrt` raises `ValueError` for `fc < 0`; for
`fc ≥ 0` its (in general irrational) value is supplied as `sfc`. -/
def shear_design (w L b d fc : ℚ) (sfc : ℚ) : Except PyErr (ℚ × ℚ × String) :=
  if fc < 0 then .error .valueError
  else
    let Vu := w * L / 2
    let phi : ℚ := 3/4
    let Vc := 17/100 * sfc * b * d / 1000
    .ok (round2 Vu, round2 (phi * Vc),
         if phi * Vc ≥ Vu then "SAFE" else "STIRRUPS REQUIRED")

/-- Embeds `np.linspace(0, L, 100)` (src/app.py:100): 100 evenly spaced
points from `0` to `L` inclusive, `x i = i * L / 99`. -/
def samplePoints (L : ℚ) : List ℚ :=
  (List.range 100).map (fun i : ℕ => (i : ℚ) * L / 99)

/-- The shear distribution `V(x)` plotted by `draw_diagrams`
(src/app.py:102-113), dispatched on the beam string in source order:
`"Simply Supported"`, `"Cantilever"`, `"Fixed End"`, final `else`. -/
def envelopeV (beam : String) (w L x : ℚ) : ℚ :=
  if beam = "Simply Supported" then w * (L / 2 - x)
  else if beam = "Cantilever" then w * (L - x)
  else if beam = "Fixed End" then w * (L / 2 - x)
  else w * (L / 2 - x)

/-- The moment distribution `M(x)` plotted by `draw_diagrams`
(src/app.py:102-113), same dispatch as `envelopeV`. -/
def envelopeM (beam : String) (w L x : ℚ) : ℚ :=
  if beam = "Simply Supported" then w * x * (L - x) / 2
  else if beam = "Cantilever" then w * (L - x) ^ 2 / 2
  else if beam = "Fixed End" then w * x * (L - x) / 12
  else w * x * (L - x) / 10

/-- Embeds the numeric content of `draw_diagrams` (src/app.py:99-131): the
list of `(x, V(x), M(x))` samples fed to the two plots.  The matplotlib
rendering itself carries no further domain logic.  The result is wrapped in
`Except PyErr` so that claims about the routine failing are statable; no
statement in the body raises (`np.linspace` and the plotting calls are total
for every real `w`, `L`), so the body always returns `.ok`. -/
def draw_diagrams (beam : String) (w L : ℚ) : Except PyErr (List (ℚ × ℚ × ℚ)) :=
  .ok ((samplePoints L).map (fun x => (x, envelopeV beam w L x, envelopeM beam w L x)))

/-- If `x` lies strictly between `n - 1/2` and `n + 1/2` then round-half-even
returns `n` (no tie can occur in an open half-unit window around `n`). -/
theorem roundHalfEven_eq_of_bounds (n : ℤ) (x : ℚ)
    (h1 : (n : ℚ) - 1/2 < x) (h2 : x < n + 1/2) : roundHalfEven x = n := by
  unfold roundHalfEven
  rcases le_or_lt (n : ℚ) x with h | h
  · have hf : ⌊x⌋ = n := Int.floor_eq_iff.mpr ⟨h, by linarith⟩
    rw [hf, if_neg (by intro heq; linarith), round_eq]
    exact Int.floor_eq_iff.mpr ⟨by linarith, by linarith⟩
  · have hf : ⌊x⌋ = n - 1 := Int.floor_eq_iff.mpr ⟨by push_cast; linarith, by push_cast; linarith⟩
    rw [hf, if_neg (by intro heq; push_cast at heq; linarith), round_eq]
    exact Int.floor_eq_iff.mpr ⟨by linarith, by linarith⟩

/-- Evaluation rule for `round2` away from ties: if `100*q` lies strictly
within a half-unit of the integer `n`, then `round2 q = n/100`. -/
theorem round2_eq_of_bounds (n : ℤ) (q : ℚ)
    (h1 : (n : ℚ) - 1/2 < 100 * q) (h2 : 100 * q < n + 1/2) : round2 q = n / 100 := by
  unfold round2
  rw [roundHalfEven_eq_of_bounds n _ h1 h2]

/-- C1: `max_moment` returns exactly `w·L²/8` for `"Simply Supported"`,
`w·L²/12` for `"Fixed End"`, `w·L²/2` for `"Cantilever"` and `w·L²/10` for
`"Overhang"`; at `w = 30`, `L = 20` the values are 1500, 1000, 6000, 1200. -/
theorem max_moment_closed_form :
    (∀ w L : ℚ,
      max_moment "Simply Supported" w L = w * L ^ 2 / 8 ∧
      max_moment "Fixed End" w L = w * L ^ 2 / 12 ∧
      max_moment "Cantilever" w L = w * L ^ 2 / 2 ∧
      max_moment "Overhang" w L = w * L ^ 2 / 10) ∧
    max_moment "Simply Supported" 30 20 = 1500 ∧
    max_moment "Fixed End" 30 20 = 1000 ∧
    max_moment "Cantilever" 30 20 = 6000 ∧
    max_moment "Overhang" 30 20 = 1200 := by
  refine ⟨fun w L => ?_, ?_, ?_, ?_, ?_⟩ <;> simp [max_moment] <;> norm_num

/-- C2: for every `w, L, b, d` and `fc ≥ 0`, `shear_design` returns
`Vu = round2 (w·L/2)` (the simply-supported reaction, independent of any
variant — the beam type is not even a parameter),
`φVc = round2 (0.75·(0.17·√fc·b·d/1000))`, and the status is `"SAFE"`
exactly when the unrounded `0.75·Vc ≥ Vu`. -/
theorem shear_design_formulas (w L b d fc sfc : ℚ) (hfc : 0 ≤ fc) :
    ∃ st : String,
      shear_design w L b d fc sfc =
        .ok (round2 (w * L / 2),
             round2 (3/4 * (17/100 * sfc * b * d / 1000)), st) ∧
      (st = "SAFE" ↔ 3/4 * (17/100 * sfc * b * d / 1000) ≥ w * L / 2) := by
  unfold shear_design
  rw [if_neg (not_lt.mpr hfc)]
  refine ⟨_, rfl, ?_⟩
  constructor
  · intro hst
    by_contra hnot
    rw [if_neg hnot] at hst
    simp at hst
  · intro hc
    rw [if_pos hc]

/-- Witness for C2 at the reference input `w=30, L=20, b=300, d=500, fc=30`
with `sfc` a decimal approximation of `√30`. -/
theorem shear_design_formulas_witness :
    ∃ st : String,
      shear_design 30 20 300 500 30 (5477225575/1000000000) =
        .ok (round2 (30 * 20 / 2),
             round2 (3/4 * (17/100 * ((5477225575 : ℚ)/1000000000) * 300 * 500 / 1000)), st) ∧
      (st = "SAFE" ↔
        3/4 * (17/100 * ((5477225575 : ℚ)/1000000000) * 300 * 500 / 1000) ≥ 30 * 20 / 2) :=
  shear_design_formulas 30 20 300 500 30 (5477225575/1000000000) (by norm_num)

/-- C3: for a recognized variant and `d > 0`, `fy > 0`, `flexural_design`
returns `Mu = max_moment beam w L` and `As = Mu·10⁶/(0.9·fy·d·0.9)`, each
rounded to 2 decimals only at the end (the `As` formula uses the unrounded
`Mu`), with the flexural strength-reduction factor fixed at `0.9`. -/
theorem flexural_design_formulas (beam : String) (w L b d fc fy : ℚ)
    (hbeam : beam = "Simply Supported" ∨ beam = "Fixed End" ∨
             beam = "Cantilever" ∨ beam = "Overhang")
    (hd : 0 < d) (hfy : 0 < fy) :
    flexural_design beam w L b d fc fy =
      .ok (round2 (max_moment beam w L),
           round2 ((max_moment beam w L * 10 ^ 6) / (9/10 * fy * d * (9/10)))) := by
  unfold flexural_design
  rw [if_neg (by positivity)]

/-- Witness for C3 at the reference input. -/
theorem flexural_design_formulas_witness :
    flexural_design "Simply Supported" 30 20 300 500 30 420 =
      .ok (round2 (max_moment "Simply Supported" 30 20),
           round2 ((max_moment "Simply Supported" 30 20 * 10 ^ 6) /
             (9/10 * 420 * 500 * (9/10)))) :=
  flexural_design_formulas "Simply Supported" 30 20 300 500 30 420
    (Or.inl rfl) (by norm_num) (by norm_num)

/-- Evaluation of `flexural_design` at the reference input
`("Simply Supported", 30, 20, 300, 500, 30, 420)`:
`Mu = 1500.00`, `As = 8818.34`. -/
theorem flexural_ref_eval :
    flexural_design "Simply Supported" 30 20 300 500 30 420 =
      .ok (1500, 881834/100) := by
  have hm : max_moment "Simply Supported" 30 20 = 1500 := by norm_num [max_moment]
  simp only [flexural_design, hm]
  rw [if_neg (by norm_num)]
  rw [round2_eq_of_bounds 150000 _ (by norm_num) (by norm_num)]
  rw [round2_eq_of_bounds 881834 _ (by norm_num) (by norm_num)]
  norm_num

/-- Evaluation of `shear_design` at the reference input, for any `sfc` in a
rational interval that contains `√30`: `Vu = 300.00`, `φVc = 104.75`,
status `"STIRRUPS REQUIRED"`. -/
theorem shear_ref_eval (sfc : ℚ)
    (hlb : 5477125/1000000 ≤ sfc) (hub : sfc ≤ 5477226/1000000) :
    shear_design 30 20 300 500 30 sfc =
      .ok (300, 10475/100, "STIRRUPS REQUIRED") := by
  simp only [shear_design]
  rw [if_neg (by norm_num)]
  rw [round2_eq_of_bounds 30000 _ (by norm_num) (by norm_num)]
  rw [round2_eq_of_bounds 10475 _ (by nlinarith) (by nlinarith)]
  rw [if_neg (by intro hc; nlinarith)]
  norm_num

/-- C4 counterexample: take `sfc = 5.477225575`, which brackets `√30` to
within `10⁻⁹` (certified by the two squared bounds), as Python's
`math.sqrt(30)` does to within one double-precision ulp.  The displayed
`φVc` at the reference input is `104.75`, not `104.77` as claimed. -/
theorem reference_phiVc_counterexample :
    ((5477225575 : ℚ)/1000000000) ^ 2 ≤ 30 ∧
    30 ≤ ((5477225575 : ℚ)/1000000000 + 1/1000000000) ^ 2 ∧
    shear_design 30 20 300 500 30 (5477225575/1000000000) =
      .ok (300, 10475/100, "STIRRUPS REQUIRED") ∧
    (10475 : ℚ)/100 ≠ 10477/100 := by
  refine ⟨by norm_num, by norm_num, ?_, by norm_num⟩
  exact shear_ref_eval _ (by norm_num) (by norm_num)

/-- C4 (amended): at the reference input
`("Simply Supported", 30, 20, 300, 500, 30, 420)` the design values are
`Mu = 1500.00`, `As = 8818.34`, `Vu = 300.00`, `φVc = 104.75` (not 104.77),
and the status is `"STIRRUPS REQUIRED"`; `sfc` is any value of `√30`
accurate to `10⁻⁴`, certified by squared bounds. -/
theorem reference_design_values (sfc : ℚ) (h0 : 0 ≤ sfc)
    (h1 : sfc ^ 2 ≤ 30) (h2 : 30 ≤ (sfc + 1/10000) ^ 2) :
    flexural_design "Simply Supported" 30 20 300 500 30 420 =
      .ok (1500, 881834/100) ∧
    shear_design 30 20 300 500 30 sfc =
      .ok (300, 10475/100, "STIRRUPS REQUIRED") := by
  have hub : sfc ≤ 5477226/1000000 := by nlinarith
  have hlb : 5477125/1000000 ≤ sfc := by nlinarith
  exact ⟨flexural_ref_eval, shear_ref_eval sfc hlb hub⟩

/-- Witness for C4 (amended) at the concrete square-root value
`sfc = 5.477225575`. -/
theorem reference_design_values_witness :
    flexural_design "Simply Supported" 30 20 300 500 30 420 =
      .ok (1500, 881834/100) ∧
    shear_design 30 20 300 500 30 (5477225575/1000000000) =
      .ok (300, 10475/100, "STIRRUPS REQUIRED") :=
  reference_design_values (5477225575/1000000000)
    (by norm_num) (by norm_num) (by norm_num)

/-- C6: actual behaviour at the claim's error inputs.  For `d = -500` the
code raises nothing and silently returns a negative steel area; for `d = 0`
or `fy = 0` it raises the builtin `ZeroDivisionError` and for `fc = -5` the
builtin `ValueError` — in no case a distinct `DomainError`. -/
theorem no_domain_error_behaviour :
    flexural_design "Simply Supported" 30 20 300 (-500) 30 420 =
      .ok (1500, -(881834/100)) ∧
    flexural_design "Simply Supported" 30 20 300 0 30 420 =
      .error .zeroDivisionError ∧
    flexural_design "Simply Supported" 30 20 300 500 30 0 =
      .error .zeroDivisionError ∧
    shear_design 30 20 300 500 (-5) 0 = .error .valueError := by
  refine ⟨?_, ?_, ?_, ?_⟩
  · have hm : max_moment "Simply Supported" 30 20 = 1500 := by norm_num [max_moment]
    simp only [flexural_design, hm]
    rw [if_neg (by norm_num)]
    rw [round2_eq_of_bounds 150000 _ (by norm_num) (by norm_num)]
    rw [round2_eq_of_bounds (-881834) _ (by norm_num) (by norm_num)]
    norm_num
  · simp only [flexural_design]
    rw [if_pos (by norm_num)]
  · simp only [flexural_design]
    rw [if_pos (by norm_num)]
  · simp only [shear_design]
    rw [if_pos (by norm_num)]

/-- There are exactly 100 sample points. -/
theorem samplePoints_length (L : ℚ) : (samplePoints L).length = 100 := by
  unfold samplePoints
  rw [List.length_map, List.length_range]

/-- The sample points are exactly the values `i·L/99` for `i < 100`. -/
theorem mem_samplePoints (L x : ℚ) :
    x ∈ samplePoints L ↔ ∃ i : ℕ, i < 100 ∧ (i : ℚ) * L / 99 = x := by
  unfold samplePoints
  rw [List.mem_map]
  constructor
  · rintro ⟨i, hi, rfl⟩
    exact ⟨i, List.mem_range.mp hi, rfl⟩
  · rintro ⟨i, hi, rfl⟩
    exact ⟨i, List.mem_range.mpr hi, rfl⟩

/-- The `i`-th sample point is `i·L/99`. -/
theorem samplePoints_getD (L : ℚ) (i : ℕ) (h : i < 100) :
    (samplePoints L).getD i 0 = (i : ℚ) * L / 99 := by
  unfold samplePoints
  rw [List.getD_eq_getElem?_getD, List.getElem?_map, List.getElem?_range h]
  rfl

/-- C5: for `L > 0`, `draw_diagrams` evaluates the envelope at exactly 100
evenly spaced points `x_i = i·L/99` covering `[0, L]` (consecutive spacing
`L/99`, first point `0`, last point `L`), using exactly the stated `V`/`M`
formula pair for each of the four variants. -/
theorem draw_diagrams_sampling (w L : ℚ) (hL : 0 < L) :
    (samplePoints L).length = 100 ∧
    (∀ i : ℕ, i < 100 → (samplePoints L).getD i 0 = (i : ℚ) * L / 99) ∧
    (∀ i : ℕ, i + 1 < 100 →
      (samplePoints L).getD (i + 1) 0 - (samplePoints L).getD i 0 = L / 99) ∧
    (samplePoints L).getD 0 0 = 0 ∧
    (samplePoints L).getD 99 0 = L ∧
    (∀ x ∈ samplePoints L, 0 ≤ x ∧ x ≤ L) ∧
    draw_diagrams "Simply Supported" w L =
      .ok ((samplePoints L).map fun x => (x, w * (L / 2 - x), w * x * (L - x) / 2)) ∧
    draw_diagrams "Fixed End" w L =
      .ok ((samplePoints L).map fun x => (x, w * (L / 2 - x), w * x * (L - x) / 12)) ∧
    draw_diagrams "Cantilever" w L =
      .ok ((samplePoints L).map fun x => (x, w * (L - x), w * (L - x) ^ 2 / 2)) ∧
    draw_diagrams "Overhang" w L =
      .ok ((samplePoints L).map fun x => (x, w * (L / 2 - x), w * x * (L - x) / 10)) := by
  refine ⟨samplePoints_length L, samplePoints_getD L, ?_, ?_, ?_, ?_, ?_, ?_, ?_, ?_⟩
  · intro i hi
    rw [samplePoints_getD L (i + 1) hi, samplePoints_getD L i (by omega)]
    push_cast
    ring
  · rw [samplePoints_getD L 0 (by norm_num)]
    norm_num
  · rw [samplePoints_getD L 99 (by norm_num)]
    norm_num
  · intro x hx
    obtain ⟨i, hi, rfl⟩ := (mem_samplePoints L x).mp hx
    have hic : (i : ℚ) ≤ 99 := by exact_mod_cast Nat.lt_succ_iff.mp hi
    constructor
    · positivity
    · rw [div_le_iff₀ (by norm_num : (0:ℚ) < 99)]
      nlinarith
  · simp [draw_diagrams, envelopeV, envelopeM]
  · simp [draw_diagrams, envelopeV, envelopeM]
  · simp [draw_diagrams, envelopeV, envelopeM]
  · simp [draw_diagrams, envelopeV, envelopeM]

/-- Witness for C5 at `w = 30`, `L = 20`. -/
theorem draw_diagrams_sampling_witness :
    (samplePoints 20).length = 100 ∧
    (∀ i : ℕ, i < 100 → (samplePoints 20).getD i 0 = (i : ℚ) * 20 / 99) ∧
    (∀ i : ℕ, i + 1 < 100 →
      (samplePoints 20).getD (i + 1) 0 - (samplePoints 20).getD i 0 = 20 / 99) ∧
    (samplePoints 20).getD 0 0 = 0 ∧
    (samplePoints 20).getD 99 0 = 20 ∧
    (∀ x ∈ samplePoints 20, 0 ≤ x ∧ x ≤ 20) ∧
    draw_diagrams "Simply Supported" 30 20 =
      .ok ((samplePoints 20).map fun x => (x, 30 * (20 / 2 - x), 30 * x * (20 - x) / 2)) ∧
    draw_diagrams "Fixed End" 30 20 =
      .ok ((samplePoints 20).map fun x => (x, 30 * (20 / 2 - x), 30 * x * (20 - x) / 12)) ∧
    draw_diagrams "Cantilever" 30 20 =
      .ok ((samplePoints 20).map fun x => (x, 30 * (20 - x), 30 * (20 - x) ^ 2 / 2)) ∧
    draw_diagrams "Overhang" 30 20 =
      .ok ((samplePoints 20).map fun x => (x, 30 * (20 / 2 - x), 30 * x * (20 - x) / 10)) :=
  draw_diagrams_sampling 30 20 (by norm_num)

/-- Sampling a degenerate zero-length span: all 100 points are `0`. -/
theorem samplePoints_zero : samplePoints 0 = List.replicate 100 0 := by
  apply List.eq_replicate_iff.mpr
  refine ⟨samplePoints_length 0, ?_⟩
  intro b hb
  obtain ⟨i, _, rfl⟩ := (mem_samplePoints 0 b).mp hb
  ring

/-- C7 counterexample: at `L = 0` the plotting routine raises nothing — it
returns the full 100-point sample, every sample being `(0, 0, 0)`, and the
plot is rendered from it. -/
theorem draw_diagrams_zero_span_counterexample :
    draw_diagrams "Simply Supported" 30 0 =
      .ok (List.replicate 100 (0, 0, 0)) := by
  unfold draw_diagrams
  rw [samplePoints_zero, List.map_replicate]
  simp [envelopeV, envelopeM]

/-- C7 (amended): for `L ≤ 0`, `draw_diagrams` does not fail: it returns
100 samples whose x-coordinates all lie between `L` and `0` (all exactly
`0` when `L = 0`), and the plot is rendered from them. -/
theorem draw_diagrams_nonpositive_span (beam : String) (w L : ℚ) (hL : L ≤ 0) :
    ∃ pts : List (ℚ × ℚ × ℚ),
      draw_diagrams beam w L = .ok pts ∧ pts.length = 100 ∧
      ∀ p ∈ pts, L ≤ p.1 ∧ p.1 ≤ 0 := by
  refine ⟨_, rfl, by rw [List.length_map, samplePoints_length], ?_⟩
  intro p hp
  rw [List.mem_map] at hp
  obtain ⟨x, hx, rfl⟩ := hp
  obtain ⟨j, hj, rfl⟩ := (mem_samplePoints L x).mp hx
  have hic : (j : ℚ) ≤ 99 := by exact_mod_cast Nat.lt_succ_iff.mp hj
  have hjc : (0 : ℚ) ≤ (j : ℚ) := Nat.cast_nonneg j
  have hjL : (j : ℚ) * L ≤ 0 := mul_nonpos_iff.mpr (Or.inl ⟨hjc, hL⟩)
  constructor
  · rw [le_div_iff₀ (by norm_num : (0:ℚ) < 99)]
    nlinarith
  · rw [div_le_iff₀ (by norm_num : (0:ℚ) < 99)]
    nlinarith

/-- Witness for C7 (amended) at `L = -5`. -/
theorem draw_diagrams_nonpositive_span_witness :
    ∃ pts : List (ℚ × ℚ × ℚ),
      draw_diagrams "Simply Supported" 30 (-5) = .ok pts ∧ pts.length = 100 ∧
      ∀ p ∈ pts, (-5 : ℚ) ≤ p.1 ∧ p.1 ≤ 0 :=
  draw_diagrams_nonpositive_span "Simply Supported" 30 (-5) (by norm_num)

/-- C8 counterexample: for the unknown variant `"Propped"` with `w = 30`,
`L = 20`, `max_moment` does degrade to `0`, but the plotted envelope is not
zero-valued: the 33rd sample point is `x = 20/3` with `V = 100` and
`M = 800/3 ≠ 0` (the Overhang formulas). -/
theorem unknown_variant_envelope_counterexample :
    max_moment "Propped" 30 20 = 0 ∧
    ((draw_diagrams "Propped" 30 20).toOption.getD []).getD 33 (0, 0, 0) =
      (20/3, 100, 800/3) ∧
    ((800 : ℚ)/3) ≠ 0 := by
  refine ⟨by simp [max_moment], ?_, by norm_num⟩
  show (((samplePoints 20).map fun x =>
      (x, envelopeV "Propped" 30 20 x, envelopeM "Propped" 30 20 x)).getD 33 (0, 0, 0)) =
    (20/3, 100, 800/3)
  rw [List.getD_eq_getElem?_getD, List.getElem?_map]
  unfold samplePoints
  rw [List.getElem?_map, List.getElem?_range (by norm_num : 33 < 100)]
  simp [envelopeV, envelopeM]
  norm_num

/-- C8 (amended): for a variant string outside the four recognized names,
`max_moment` degrades to `0` without raising, but the plotting envelope is
not zero-valued: `draw_diagrams` falls through to its `else` branch and
plots the Overhang distribution `V(x) = w·(L/2 − x)`,
`M(x) = w·x·(L − x)/10`. -/
theorem unknown_variant_degrades (beam : String) (w L : ℚ)
    (h1 : beam ≠ "Simply Supported") (h2 : beam ≠ "Fixed End")
    (h3 : beam ≠ "Cantilever") (h4 : beam ≠ "Overhang") :
    max_moment beam w L = 0 ∧
    draw_diagrams beam w L =
      .ok ((samplePoints L).map fun x => (x, w * (L / 2 - x), w * x * (L - x) / 10)) := by
  constructor
  · simp [max_moment, h1, h2, h3, h4]
  · simp [draw_diagrams, envelopeV, envelopeM, h1, h2, h3]

/-- Witness for C8 (amended) at the unknown variant `"Propped"`. -/
theorem unknown_variant_degrades_witness :
    max_moment "Propped" 30 20 = 0 ∧
    draw_diagrams "Propped" 30 20 =
      .ok ((samplePoints 20).map fun x =>
        (x, 30 * (20 / 2 - x), 30 * x * (20 - x) / 10)) :=
  unknown_variant_degrades "Propped" 30 20
    (by decide) (by decide) (by decide) (by decide)

/-- C10: for any beam string that is not one of the four recognized names,
`draw_diagrams` still produces a plot, computed with the Overhang
distribution `V(x) = w·(L/2 − x)`, `M(x) = w·x·(L − x)/10` — the dispatch
falls through to the final `else` branch, so the output coincides with the
`"Overhang"` output. -/
theorem unrecognized_beam_uses_overhang_formulas (beam : String) (w L : ℚ)
    (h1 : beam ≠ "Simply Supported") (h2 : beam ≠ "Fixed End")
    (h3 : beam ≠ "Cantilever") (h4 : beam ≠ "Overhang") :
    draw_diagrams beam w L =
      .ok ((samplePoints L).map fun x => (x, w * (L / 2 - x), w * x * (L - x) / 10)) ∧
    draw_diagrams beam w L = draw_diagrams "Overhang" w L := by
  constructor
  · simp [draw_diagrams, envelopeV, envelopeM, h1, h2, h3]
  · simp [draw_diagrams, envelopeV, envelopeM, h1, h2, h3]

/-- Witness for C10 at the unknown variant `"Unknown"`. -/
theorem unrecognized_beam_uses_overhang_formulas_witness :
    draw_diagrams "Unknown" 30 20 =
      .ok ((samplePoints 20).map fun x =>
        (x, 30 * (20 / 2 - x), 30 * x * (20 - x) / 10)) ∧
    draw_diagrams "Unknown" 30 20 = draw_diagrams "Overhang" 30 20 :=
  unrecognized_beam_uses_overhang_formulas "Unknown" 30 20
    (by decide) (by decide) (by decide) (by decide)

/-- C9 counterexample: monotonicity as literally stated fails for negative
section dimensions (which the claim does not exclude).  With `w = 2`,
`L = 1`, `fc = 4` (whose exact square root is `2`): at `b = d = -63`
the status is `"SAFE"`, yet increasing `d` to `-62 ≥ -63` (with `b`
unchanged) flips the status to `"STIRRUPS REQUIRED"`. -/
theorem shear_monotone_counterexample :
    (0 : ℚ) < 4 ∧ (2 : ℚ) ^ 2 = 4 ∧
    (-63 : ℚ) ≤ -63 ∧ (-63 : ℚ) ≤ -62 ∧
    shear_design 2 1 (-63) (-63) 4 2 = .ok (1, 101/100, "SAFE") ∧
    shear_design 2 1 (-63) (-62) 4 2 = .ok (1, 1, "STIRRUPS REQUIRED") := by
  refine ⟨by norm_num, by norm_num, by norm_num, by norm_num, ?_, ?_⟩
  · simp only [shear_design]
    rw [if_neg (by norm_num)]
    rw [round2_eq_of_bounds 100 _ (by norm_num) (by norm_num)]
    rw [round2_eq_of_bounds 101 _ (by norm_num) (by norm_num)]
    rw [if_pos (by norm_num)]
    norm_num
  · simp only [shear_design]
    rw [if_neg (by norm_num)]
    rw [round2_eq_of_bounds 100 _ (by norm_num) (by norm_num)]
    rw [round2_eq_of_bounds 100 _ (by norm_num) (by norm_num)]
    rw [if_neg (by norm_num)]
    norm_num

/-- C9 (amended): with nonnegative section dimensions (as the data model
requires), shear adequacy is monotone: if the status is `"SAFE"` at
`(b, d)` it stays `"SAFE"` at any `(b2, d2)` with `b ≤ b2`, `d ≤ d2`, all
else equal; and for `fc > 0` (so `sfc = √fc > 0`) there are large enough
dimensions for which the status is `"SAFE"`. -/
theorem shear_safe_monotone (w L fc sfc b d b2 d2 : ℚ)
    (hfc : 0 < fc) (hs : 0 < sfc) (hb : 0 ≤ b) (hd : 0 ≤ d)
    (hb2 : b ≤ b2) (hd2 : d ≤ d2) :
    ((∃ vu vc : ℚ, shear_design w L b d fc sfc = .ok (vu, vc, "SAFE")) →
      ∃ vu vc : ℚ, shear_design w L b2 d2 fc sfc = .ok (vu, vc, "SAFE")) ∧
    ∃ b3 d3 vu vc : ℚ, shear_design w L b3 d3 fc sfc = .ok (vu, vc, "SAFE") := by
  have hfc' : ¬ fc < 0 := not_lt.mpr hfc.le
  constructor
  · intro hsafe
    obtain ⟨vu, vc, h⟩ := hsafe
    simp only [shear_design, if_neg hfc', Except.ok.injEq, Prod.mk.injEq] at h
    obtain ⟨-, -, h3⟩ := h
    have hcond : 3/4 * (17/100 * sfc * b * d / 1000) ≥ w * L / 2 := by
      by_contra hc
      rw [if_neg hc] at h3
      simp at h3
    have hbd : b * d ≤ b2 * d2 :=
      mul_le_mul hb2 hd2 hd (le_trans hb hb2)
    have hmono : sfc * (b * d) ≤ sfc * (b2 * d2) :=
      mul_le_mul_of_nonneg_left hbd hs.le
    have hcond2 : 3/4 * (17/100 * sfc * b2 * d2 / 1000) ≥ w * L / 2 := by
      nlinarith
    refine ⟨round2 (w * L / 2), round2 (3/4 * (17/100 * sfc * b2 * d2 / 1000)), ?_⟩
    simp only [shear_design, if_neg hfc']
    rw [if_pos hcond2]
  · have h51 : (0 : ℚ) < 51 * sfc := by positivity
    have hB : 200000 * w * L / (51 * sfc) ≤ max (200000 * w * L / (51 * sfc)) 0 :=
      le_max_left _ _
    have key : 200000 * w * L ≤ 51 * sfc * max (200000 * w * L / (51 * sfc)) 0 := by
      rw [div_le_iff₀ h51] at hB
      nlinarith
    have hcond3 :
        3/4 * (17/100 * sfc * max (200000 * w * L / (51 * sfc)) 0 * 1 / 1000) ≥
          w * L / 2 := by
      nlinarith
    refine ⟨max (200000 * w * L / (51 * sfc)) 0, 1, round2 (w * L / 2),
      round2 (3/4 * (17/100 * sfc * max (200000 * w * L / (51 * sfc)) 0 * 1 / 1000)), ?_⟩
    simp only [shear_design, if_neg hfc']
    rw [if_pos hcond3]

/-- Witness for C9 (amended) at `w = 30`, `L = 20`, `fc = 4`, `sfc = 2`,
`(b, d) = (300, 500)` growing to `(b2, d2) = (3000, 5000)`. -/
theorem shear_safe_monotone_witness :
    ((∃ vu vc : ℚ, shear_design 30 20 300 500 4 2 = .ok (vu, vc, "SAFE")) →
      ∃ vu vc : ℚ, shear_design 30 20 3000 5000 4 2 = .ok (vu, vc, "SAFE")) ∧
    ∃ b3 d3 vu vc : ℚ, shear_design 30 20 b3 d3 4 2 = .ok (vu, vc, "SAFE") :=
  shear_safe_monotone 30 20 4 2 300 500 3000 5000
    (by norm_num) (by norm_num) (by norm_num) (by norm_num)
    (by norm_num) (by norm_num)

end RCBeam
